import Mathlib

/-!
Verification development for the AI Course Builder pipeline of the
mizelconsulting repository.  The definitions below are a shallow embedding of
the TypeScript source: `queryPineconeContent`, `generateEnhancedCourse` and
`createCourseInTutorLMS` from `course-builder-helpers`, the
`executeCourseCreation` orchestrator from `course-builder/create/route.ts`,
and the post-filtering of the `query-course-content` route.  JavaScript
`undefined` is modelled by `Option.none`; JS truthiness of strings and
numbers is modelled explicitly.
-/

/-- JS `a || b` on possibly-absent strings: `none` models `undefined`,
and the empty string is falsy. -/
def jsOrStr : Option String → Option String → Option String
  | some s, b => if s = "" then b else some s
  | none, b => b

/-- JS `a || d` where `d` is a plain string default. -/
def jsOrDefault (a : Option String) (d : String) : String :=
  match a with
  | some s => if s = "" then d else s
  | none => d

/-- A quiz question as produced by the synthesis stage (the `question`
objects in the generated course structure): a `type` string (the empty
string models an absent field), text, an optional option list, an optional
correct index (`correctAnswer`), optional correct indices
(`correctAnswers`) and an optional explanation. -/
structure GenQuestion where
  qtype : String
  question : String
  options : Option (List String)
  correctAnswer : Option Nat
  correctAnswers : Option (List Nat)
  explanation : Option String
deriving Repr, DecidableEq

/-- The three observed LMS create-response shapes:
`{data:{id:n}}`, `{data:n}` and `{id:n}`. -/
inductive RespShape
  | dataObjId (n : Nat)
  | dataBare (n : Nat)
  | rootId (n : Nat)
deriving Repr, DecidableEq

/-- A JS value extracted as an "id": either a number or the wrapper object
`{id:n}` itself (which the course-id extraction can yield). -/
inductive JVal
  | num (n : Nat)
  | objId (n : Nat)
deriving Repr, DecidableEq

/-- The `correct_answer` wire value: either a single string or an array of
possibly-`null` strings (a `none` entry models a JS `undefined` produced by
an out-of-range index, serialized as `null`). -/
inductive CorrectAnswer
  | str (s : String)
  | arr (ss : List (Option String))
deriving Repr, DecidableEq

/-- The quiz-question create payload built by `createCourseInTutorLMS`;
`options`/`correct_answer` being `none` models the key being absent from
the serialized JSON (assigning `undefined` drops the key). -/
structure QuestionPayload where
  quiz_id : JVal
  question_title : String
  question_type : String
  answer_required : Nat
  randomize_question : Nat
  question_mark : Nat
  show_question_mark : Nat
  answer_explanation : String
  question_description : String
  options : Option (List String)
  correct_answer : Option CorrectAnswer
deriving Repr, DecidableEq

/-- JS `options?.[i]` with both the option list and the index possibly
absent. -/
def jsOptIndex (os? : Option (List String)) (i? : Option Nat) : Option String :=
  match os?, i? with
  | some os, some i => os[i]?
  | _, _ => none

/-- Shallow embedding of the per-question payload construction inside
`createCourseInTutorLMS`: the `questionData` object and the kind-specific
branches (the open_ended and short_answer branches only re-assign
`question_type` to its existing value and add no answer fields, so they
coincide with the base object). -/
def mkQuestionData (quizId : JVal) (q : GenQuestion) : QuestionPayload :=
  let mappedType := if q.qtype = "" then "single_choice" else q.qtype
  let base : QuestionPayload :=
    { quiz_id := quizId
      question_title := q.question
      question_type := mappedType
      answer_required := 1
      randomize_question := 1
      question_mark := 1
      show_question_mark := 1
      answer_explanation := jsOrDefault q.explanation ""
      question_description := jsOrDefault q.explanation ""
      options := none
      correct_answer := none }
  if mappedType = "single_choice" then
    { base with
      options := some (q.options.getD [])
      correct_answer :=
        (jsOrStr (jsOptIndex q.options q.correctAnswer)
          (jsOptIndex q.options (some 0))).map CorrectAnswer.str }
  else if mappedType = "multiple_choice" then
    { base with
      options := some (q.options.getD [])
      correct_answer := some (CorrectAnswer.arr
        (match q.correctAnswers with
         | some is => is.map fun i => jsOptIndex q.options (some i)
         | none => [])) }
  else if mappedType = "true_false" then
    { base with
      correct_answer := some (CorrectAnswer.str
        (if q.correctAnswer = some 0 then "true" else "false")) }
  else
    base

/-- JS truthiness of a possibly-absent extracted id: `undefined` and the
number 0 are falsy; objects are always truthy. -/
def jsTruthy : Option JVal → Bool
  | none => false
  | some (JVal.num n) => n != 0
  | some (JVal.objId _) => true

/-- The course-id extraction `courseResult.data || courseResult.id`. -/
def courseIdExtract : RespShape → Option JVal
  | RespShape.dataObjId n => some (JVal.objId n)
  | RespShape.dataBare n => if n = 0 then none else some (JVal.num n)
  | RespShape.rootId n => some (JVal.num n)

/-- The topic/lesson/quiz id extraction
`result.data?.id || result.data || result.id`. -/
def nodeIdExtract : RespShape → Option JVal
  | RespShape.dataObjId n => if n = 0 then some (JVal.objId n) else some (JVal.num n)
  | RespShape.dataBare n => if n = 0 then none else some (JVal.num n)
  | RespShape.rootId n => some (JVal.num n)

/-- The quiz `time_limit` object: `{ time_value, time_type }`. -/
structure TimeLimit where
  time_value : Nat
  time_type : String
deriving Repr, DecidableEq

/-- The `quiz_options` object of the quiz-create payload. -/
structure QuizOptions where
  time_limit : TimeLimit
  feedback_mode : String
  question_layout_view : String
  attempts_allowed : Nat
  passing_grade : Nat
  max_questions_for_answer : Nat
  questions_order : String
  short_answer_characters_limit : Nat
  open_ended_answer_characters_limit : Nat
deriving Repr, DecidableEq

/-- A quiz of the synthesized course tree. -/
structure GenQuiz where
  title : String
  description : Option String
  questions : List GenQuestion
deriving Repr, DecidableEq

/-- The quiz-create payload built by `createCourseInTutorLMS`. -/
structure QuizPayload where
  topic_id : JVal
  quiz_title : String
  quiz_author : Nat
  quiz_description : String
  quiz_options : QuizOptions
deriving Repr, DecidableEq

/-- Shallow embedding of the `quizPayload` object construction in
`createCourseInTutorLMS`. -/
def mkQuizPayload (topicId : JVal) (qz : GenQuiz) : QuizPayload :=
  { topic_id := topicId
    quiz_title := qz.title
    quiz_author := 1
    quiz_description := jsOrDefault qz.description ""
    quiz_options :=
      { time_limit := { time_value := 45, time_type := "minutes" }
        feedback_mode := "default"
        question_layout_view := "question_below_each_other"
        attempts_allowed := 3
        passing_grade := 70
        max_questions_for_answer := qz.questions.length
        questions_order := "rand"
        short_answer_characters_limit := 500
        open_ended_answer_characters_limit := 1000 } }

/-- A lesson of the synthesized course tree. -/
structure GenLesson where
  title : String
  content : String
  imageDescription : Option String
deriving Repr, DecidableEq

/-- A topic of the synthesized course tree. -/
structure GenTopic where
  title : String
  summary : String
  lessons : List GenLesson
  quiz : Option GenQuiz
deriving Repr, DecidableEq

/-- The course-level metadata of the synthesized course tree. -/
structure GenCourse where
  title : String
  description : String
  difficulty : String
  duration : Option Nat
  overview : Option String
  learningObjectives : Option (List String)
  targetAudience : Option (List String)
  requirements : Option (List String)
  materialsIncluded : Option (List String)
deriving Repr, DecidableEq

/-- The synthesized course structure handed to `createCourseInTutorLMS`. -/
structure CourseStructure where
  course : GenCourse
  topics : List GenTopic
deriving Repr, DecidableEq

/-- The value of the `shouldGenerateImages` parameter as a JS value,
after the boolean defaulting at the function boundary: strict equality
`=== true` only holds for the boolean `true`. -/
inductive JSFlag
  | jbool (b : Bool)
  | jnum (n : Nat)
  | jstr (s : String)
  | jundef
deriving Repr, DecidableEq

/-- Upstream call outcomes for one publish run: for each create call, the
response shape when the HTTP call returned ok, or `none` for a non-ok
response; image generation and media upload outcomes per node. -/
structure LmsEnv where
  configOk : Bool
  courseResp : Option RespShape
  topicResp : Nat → Option RespShape
  lessonResp : Nat → Nat → Option RespShape
  quizResp : Nat → Option RespShape
  questionOk : Nat → Nat → Bool
  courseImage : Option String
  courseUpload : Option Nat
  lessonImage : Nat → Nat → Option String
  lessonUpload : Nat → Nat → Option Nat

/-- One upstream call issued during a publish run, identified by its tree
position (topic index `i`, lesson index `j`, question index `k`). -/
inductive LmsCall
  | createCourse
  | genCourseImage
  | uploadCourseImage
  | setCourseThumbnail
  | createTopic (i : Nat)
  | createLesson (i j : Nat)
  | genLessonImage (i j : Nat)
  | uploadLessonImage (i j : Nat)
  | setLessonThumbnail (i j : Nat)
  | createQuiz (i : Nat)
  | createQuestion (i k : Nat)
deriving Repr, DecidableEq

/-- The statistics object of the publish result. -/
structure PublishStats where
  totalTopics : Nat
  totalLessons : Nat
  totalQuizzes : Nat
deriving Repr, DecidableEq

/-- The value returned by `createCourseInTutorLMS`: `{success:true, courseId,
permalink, statistics}` or `{success:false, message, ...}`. -/
inductive PublishOutcome
  | ok (courseId : Option JVal) (permalink : String) (stats : PublishStats)
  | err (msg : String)
deriving Repr, DecidableEq

/-- The statistics computed at the end of `createCourseInTutorLMS`: counts
taken from the input `courseStructure`, not from the created nodes. -/
def inputStats (cs : CourseStructure) : PublishStats :=
  { totalTopics := cs.topics.length
    totalLessons := (cs.topics.map fun t => t.lessons.length).sum
    totalQuizzes := (cs.topics.filter fun t => t.quiz.isSome).length }

/-- Whether a character survives the slug character class `[a-z0-9]`. -/
def isSlugChar (c : Char) : Bool :=
  (('a' ≤ c && c ≤ 'z') || ('0' ≤ c && c ≤ '9'))

/-- The permalink slug: `title.toLowerCase().replace(/[^a-z0-9]+/g, '-')` —
each maximal run of non-alphanumeric characters becomes one dash. -/
def slugify (s : String) : String :=
  (((s.toList.map Char.toLower).foldl
    (fun acc c =>
      if isSlugChar c then (acc.1.push c, false)
      else if acc.2 then acc
      else (acc.1.push '-', true))
    (("", false) : String × Bool)).1)

/-- The calls issued for one lesson (index `j` of topic `i`): create the
lesson; on a non-ok response or a falsy extracted id, continue; otherwise
unconditionally attempt the lesson image (generate, upload, set
thumbnail, each step best-effort). -/
def publishLesson (env : LmsEnv) (i j : Nat) : List LmsCall :=
  LmsCall.createLesson i j ::
    match env.lessonResp i j with
    | none => []
    | some sh =>
      if jsTruthy (nodeIdExtract sh) then
        LmsCall.genLessonImage i j ::
          match env.lessonImage i j with
          | none => []
          | some _url =>
            LmsCall.uploadLessonImage i j ::
              match env.lessonUpload i j with
              | none => []
              | some _mid => [LmsCall.setLessonThumbnail i j]
      else []

/-- The calls issued for the quiz of topic `i`: create the quiz; on a non-ok
response or a falsy extracted id, skip the questions; otherwise attempt
every question (a failed question create never aborts its siblings). -/
def publishQuiz (env : LmsEnv) (i : Nat) (qz : GenQuiz) : List LmsCall :=
  LmsCall.createQuiz i ::
    match env.quizResp i with
    | none => []
    | some sh =>
      if jsTruthy (nodeIdExtract sh) then
        (List.range qz.questions.length).map fun k => LmsCall.createQuestion i k
      else []

/-- The calls issued for topic `i`: create the topic; on a non-ok response
or a falsy extracted id, skip this topic's lessons and quiz entirely;
otherwise publish every lesson and then the quiz, if any. -/
def publishTopic (env : LmsEnv) (i : Nat) (t : GenTopic) : List LmsCall :=
  LmsCall.createTopic i ::
    match env.topicResp i with
    | none => []
    | some sh =>
      if jsTruthy (nodeIdExtract sh) then
        ((List.range t.lessons.length).flatMap fun j => publishLesson env i j) ++
          match t.quiz with
          | some qz => publishQuiz env i qz
          | none => []
      else []

/-- The topic loop of `createCourseInTutorLMS`, processing topics in order
starting at index `i`. -/
def publishTopicsAux (env : LmsEnv) : Nat → List GenTopic → List LmsCall
  | _, [] => []
  | i, t :: ts => publishTopic env i t ++ publishTopicsAux env (i + 1) ts

/-- The course-thumbnail calls of step 1.5: attempted only under the strict
check `shouldGenerateImages === true`; generation, upload and the
thumbnail write are each best-effort. -/
def courseImageCalls (env : LmsEnv) (shouldGenerateImages : JSFlag) : List LmsCall :=
  if shouldGenerateImages = JSFlag.jbool true then
    LmsCall.genCourseImage ::
      match env.courseImage with
      | none => []
      | some _url =>
        LmsCall.uploadCourseImage ::
          match env.courseUpload with
          | none => []
          | some _mid => [LmsCall.setCourseThumbnail]
  else []

/-- Shallow embedding of `createCourseInTutorLMS`: returns the trace of
upstream calls issued and the function's result value.  A missing
configuration or a non-ok course-create response throws, caught as an
error result; afterwards the course image is attempted only under
`shouldGenerateImages === true`, every topic is processed in order, and
the result is success with statistics taken from the input tree. -/
def createCourseInTutorLMS (env : LmsEnv) (cs : CourseStructure)
    (shouldGenerateImages : JSFlag) (baseUrl : String) :
    List LmsCall × PublishOutcome :=
  if env.configOk = false then
    ([], PublishOutcome.err "Missing Tutor LMS configuration")
  else
    match env.courseResp with
    | none => ([LmsCall.createCourse], PublishOutcome.err "Failed to create course in Tutor LMS")
    | some sh =>
      (LmsCall.createCourse :: courseImageCalls env shouldGenerateImages ++
          publishTopicsAux env 0 cs.topics,
        PublishOutcome.ok (courseIdExtract sh)
          (baseUrl ++ "course/" ++ slugify cs.course.title ++ "/")
          (inputStats cs))

/-- A raw Pinecone match as consumed by the two retrieval code paths:
optional metadata fields, an optional score and an optional record id. -/
structure PineMatch where
  metaText : Option String
  metaContent : Option String
  metaFileName : Option String
  metaFileName2 : Option String
  metaSource : Option String
  metaFileId : Option String
  metaMime : Option String
  metaMime2 : Option String
  score : Option ℚ
  id : Option String
deriving Repr, DecidableEq

/-- A content chunk as built by `queryPineconeContent`. -/
structure CourseContent where
  text : String
  fileName : String
  score : ℚ
  fileId : String
  mimeType : String
deriving Repr, DecidableEq

/-- The per-match extraction inside `queryPineconeContent`:
`text || content || ''`, `file_name || fileName || source || 'Unknown'`,
`score || 0`, `id || ''`, `mime_type || mimeType || ''`. -/
def matchToContent (m : PineMatch) : CourseContent :=
  { text := jsOrDefault (jsOrStr m.metaText m.metaContent) ""
    fileName := jsOrDefault (jsOrStr m.metaFileName (jsOrStr m.metaFileName2 m.metaSource)) "Unknown"
    score := m.score.getD 0
    fileId := jsOrDefault m.id ""
    mimeType := jsOrDefault (jsOrStr m.metaMime m.metaMime2) "" }

/-- The `allContent` list built by `queryPineconeContent`: map every match
and keep exactly the chunks with non-empty text.  No relevance-score
filter is applied on this path. -/
def queryPineconeAllContent (ms : List PineMatch) : List CourseContent :=
  (ms.map matchToContent).filter fun c => c.text.length > 0

/-- A content chunk as built by the `query-course-content` route, which
keeps the raw optional score. -/
structure RouteContent where
  text : String
  fileName : String
  score : Option ℚ
  fileId : String
  mimeType : String
deriving Repr, DecidableEq

/-- The route's score filter `match.score && match.score > 0.3`:
an absent score and the falsy score 0 are dropped, otherwise the
comparison decides. -/
def scorePass (s : Option ℚ) : Bool :=
  match s with
  | none => false
  | some q => (q != 0) && decide (q > mkRat 3 10)

/-- The `relevantContent` list of the `query-course-content` route:
filter by score, map the metadata, then drop chunks whose text length is
at most 50. -/
def relevantContent (ms : List PineMatch) : List RouteContent :=
  (((ms.filter fun m => scorePass m.score).map fun m =>
    ({ text := jsOrDefault m.metaText ""
       fileName := jsOrDefault m.metaFileName "Unknown"
       score := m.score
       fileId := jsOrDefault m.metaFileId ""
       mimeType := jsOrDefault m.metaMime "" } : RouteContent))).filter
    fun c => c.text.length > 50

/-- The outcome of `queryPineconeContent` as seen by the orchestrator:
success with the extracted chunk list, or `{success:false}` after a caught
backend error (unreachable or unconfigured embedding/vector backend). -/
inductive RetrievalOutcome
  | ok (chunks : List CourseContent)
  | failure (msg : String)

/-- The statistics object returned by `generateEnhancedCourse`. -/
structure SynthStats where
  totalTopics : Nat
  totalLessons : Nat
  totalQuizzes : Nat
  totalQuestions : Nat
  totalTags : Nat
deriving Repr, DecidableEq

/-- The outcome of `generateEnhancedCourse` as seen by the orchestrator. -/
inductive SynthOutcome
  | ok (stats : SynthStats)
  | failure (msg : String)

/-- The `contentText` fallback inside `generateEnhancedCourse`: join the
chunks when any exist, otherwise substitute the general-domain-knowledge
note. -/
def contentTextOf (chunks : List CourseContent) : String :=
  if chunks.length > 0 then
    String.intercalate "\n\n---\n\n"
      (chunks.map fun c => "From " ++ c.fileName ++ ": " ++ c.text)
  else
    "No specific training materials found. Generate comprehensive content based on industry best practices and OSHA standards."

/-- One server-sent event of the progress stream. -/
structure ProgressEvent where
  etype : String
  step : String
  progress : Nat
  message : String
deriving Repr, DecidableEq

/-- A stage invocation recorded during one orchestrator run; the synthesis
entry carries the chunk list it was invoked with. -/
inductive StageInvocation
  | retrieval
  | synthesis (chunks : List CourseContent)
  | publishStage
deriving Repr, DecidableEq

/-- Whether a stage invocation is the synthesis stage. -/
def isSynthInvocation : StageInvocation → Bool
  | StageInvocation.synthesis _ => true
  | _ => false

/-- The initial `status` event enqueued by the route handler before the
pipeline starts. -/
def initialStatusEvent : ProgressEvent :=
  { etype := "status", step := "initializing", progress := 0,
    message := "🚀 Starting course creation process..." }

/-- A `progress` event as built by `sendProgress`. -/
def progressEvent (step : String) (p : Nat) (msg : String) : ProgressEvent :=
  { etype := "progress", step := step, progress := p, message := msg }

/-- The terminal `error` event of the catch block: its progress is the
constant 0. -/
def errorEvent (msg : String) : ProgressEvent :=
  { etype := "error", step := "error", progress := 0,
    message := "❌ Course creation failed: " ++ msg }

/-- The terminal `complete` event. -/
def completeEvent : ProgressEvent :=
  { etype := "complete", step := "completed", progress := 100,
    message := "🎉 Comprehensive course created successfully!" }

/-- The observable outcome of one orchestrator run: the ordered event
stream (initial status event included), the stages invoked, and whether
the stream controller was closed. -/
structure RunResult where
  events : List ProgressEvent
  invocations : List StageInvocation
  closed : Bool
deriving Repr, DecidableEq

/-- Shallow embedding of `executeCourseCreation` (plus the initial status
event of the enclosing route handler): the retrieval, synthesis and
publish stages run in order; a failed stage result throws, landing in the
catch block that enqueues a terminal error event and closes the stream;
otherwise the checkpoint progress events 10/20/30/50/60/80/90 are emitted
and the run ends with the `complete` event at progress 100. -/
def executeCourseCreation (r : RetrievalOutcome)
    (synth : List CourseContent → SynthOutcome) (pub : PublishOutcome) :
    RunResult :=
  let ev0 := initialStatusEvent
  let ev1 := progressEvent "querying_pinecone" 10
    "🔍 Searching knowledge base for relevant content..."
  match r with
  | RetrievalOutcome.failure msg =>
    { events := [ev0, ev1, errorEvent (jsOrDefault (some msg) "Failed to query course content")],
      invocations := [StageInvocation.retrieval],
      closed := true }
  | RetrievalOutcome.ok chunks =>
    let ev2 := progressEvent "content_found" 20
      ("📊 Found " ++ toString chunks.length ++ " relevant documents")
    let ev3 := progressEvent "generating_content" 30
      "🤖 Generating comprehensive course structure and content..."
    match synth chunks with
    | SynthOutcome.failure msg =>
      { events := [ev0, ev1, ev2, ev3,
          errorEvent (jsOrDefault (some msg) "Failed to generate course structure")],
        invocations := [StageInvocation.retrieval, StageInvocation.synthesis chunks],
        closed := true }
    | SynthOutcome.ok stats =>
      let ev4 := progressEvent "content_generated" 50
        ("✅ Generated " ++ toString stats.totalTopics ++ " topics, " ++
          toString stats.totalLessons ++ " lessons, " ++
          toString stats.totalQuizzes ++ " quizzes")
      let ev5 := progressEvent "creating_course" 60
        "📚 Creating comprehensive course in Tutor LMS..."
      match pub with
      | PublishOutcome.err msg =>
        { events := [ev0, ev1, ev2, ev3, ev4, ev5,
            errorEvent (jsOrDefault (some msg) "Failed to create course in Tutor LMS")],
          invocations := [StageInvocation.retrieval, StageInvocation.synthesis chunks,
            StageInvocation.publishStage],
          closed := true }
      | PublishOutcome.ok _cid _permalink _pstats =>
        { events := [ev0, ev1, ev2, ev3, ev4, ev5,
            progressEvent "course_created" 80
              "✅ Comprehensive course created successfully in Tutor LMS",
            progressEvent "finalizing" 90
              "🎯 Finalizing course setup with all content...",
            completeEvent],
          invocations := [StageInvocation.retrieval, StageInvocation.synthesis chunks,
            StageInvocation.publishStage],
          closed := true }

/-- Whether an event is terminal (`complete` or `error`). -/
def isTerminal (e : ProgressEvent) : Bool :=
  e.etype = "complete" || e.etype = "error"

/-- Whether a list of naturals is monotonically non-decreasing. -/
def nonDecreasing : List Nat → Bool
  | [] => true
  | [_] => true
  | a :: b :: rest => (a ≤ b : Bool) && nonDecreasing (b :: rest)

/-- Whether topic `i`'s create call succeeded with a truthy extracted id
in the given environment. -/
def topicCreatedOk (env : LmsEnv) (i : Nat) : Bool :=
  match env.topicResp i with
  | none => false
  | some sh => jsTruthy (nodeIdExtract sh)

/-- Whether lesson `j` of topic `i` was created with a truthy extracted id
in the given environment. -/
def lessonCreatedOk (env : LmsEnv) (i j : Nat) : Bool :=
  match env.lessonResp i j with
  | none => false
  | some sh => jsTruthy (nodeIdExtract sh)

/-- The run of `executeCourseCreation` on a retrieval-backend failure, with
successful downstream stage stubs: used to observe that the failure is
fatal despite the later stages being available. -/
def retrievalFailureRun : RunResult :=
  executeCourseCreation (RetrievalOutcome.failure "getaddrinfo ENOTFOUND")
    (fun _ => SynthOutcome.ok ⟨3, 6, 3, 60, 10⟩)
    (PublishOutcome.ok (some (JVal.num 11)) "permalink" ⟨3, 6, 3⟩)

/-- The topic index carried by a call, when any: course-level calls carry
none. -/
def callTopicIdx : LmsCall → Option Nat
  | LmsCall.createCourse => none
  | LmsCall.genCourseImage => none
  | LmsCall.uploadCourseImage => none
  | LmsCall.setCourseThumbnail => none
  | LmsCall.createTopic i => some i
  | LmsCall.createLesson i _ => some i
  | LmsCall.genLessonImage i _ => some i
  | LmsCall.uploadLessonImage i _ => some i
  | LmsCall.setLessonThumbnail i _ => some i
  | LmsCall.createQuiz i => some i
  | LmsCall.createQuestion i _ => some i

/-- A concrete single_choice question for the Claim C1 witness. -/
def scQuestion : GenQuestion :=
  { qtype := "single_choice", question := "Which PPE protects the head?",
    options := some ["Hard hat", "Gloves", "Goggles", "Boots"],
    correctAnswer := some 0, correctAnswers := none,
    explanation := some "Hard hats protect the head." }

/-- A concrete multiple_choice question for the Claim C1 witness. -/
def mcQuestion : GenQuestion :=
  { qtype := "multiple_choice", question := "Select all PPE items.",
    options := some ["Hard hat", "Sandwich", "Goggles"],
    correctAnswer := none, correctAnswers := some [0, 2],
    explanation := none }

/-- A concrete true_false question for the Claim C1 witness. -/
def tfQuestion : GenQuestion :=
  { qtype := "true_false", question := "Hard hats are required on site.",
    options := none, correctAnswer := some 0, correctAnswers := none,
    explanation := none }

/-- A concrete open_ended question for the Claim C1 witness. -/
def oeQuestion : GenQuestion :=
  { qtype := "open_ended", question := "Describe the lockout procedure.",
    options := none, correctAnswer := none, correctAnswers := none,
    explanation := none }

/-- A one-question quiz, concrete input for the Claim C7 counterexample. -/
def quizOneQuestion : GenQuiz :=
  { title := "Short assessment", description := none,
    questions := [tfQuestion] }

/-- A twenty-question quiz, concrete input for the Claim C7
counterexample. -/
def quizTwentyQuestions : GenQuiz :=
  { title := "Comprehensive assessment", description := none,
    questions := (List.range 20).map fun _ => tfQuestion }

/-- A one-topic course structure with one lesson and one quiz, concrete
input for Claim C3. -/
def csOneQuiz : CourseStructure :=
  { course :=
      { title := "Safety Basics", description := "Safety basics course",
        difficulty := "beginner", duration := some 3, overview := none,
        learningObjectives := none, targetAudience := none,
        requirements := none, materialsIncluded := none }
    topics :=
      [{ title := "Topic 1", summary := "Summary",
         lessons := [{ title := "Lesson 1", content := "Content",
                       imageDescription := none }],
         quiz := some { title := "Quiz 1", description := none,
                        questions := [tfQuestion] } }] }

/-- An environment where the course, topics and lessons are created but
every quiz create-call fails, concrete input for Claim C3. -/
def envQuizFail : LmsEnv :=
  { configOk := true
    courseResp := some (RespShape.dataBare 101)
    topicResp := fun _ => some (RespShape.dataObjId 201)
    lessonResp := fun _ _ => some (RespShape.dataObjId 301)
    quizResp := fun _ => none
    questionOk := fun _ _ => true
    courseImage := none
    courseUpload := none
    lessonImage := fun _ _ => none
    lessonUpload := fun _ _ => none }

/-- The second topic of the two-topic concrete course structure. -/
def topicTwo : GenTopic :=
  { title := "Topic 2", summary := "Second",
    lessons := [{ title := "Lesson 2.1", content := "Content",
                  imageDescription := none }],
    quiz := none }

/-- A two-topic course structure, concrete input for Claims C5 and C10. -/
def csTwoTopics : CourseStructure :=
  { course :=
      { title := "Fall Protection Basics", description := "Fall protection",
        difficulty := "beginner", duration := some 3, overview := none,
        learningObjectives := none, targetAudience := none,
        requirements := none, materialsIncluded := none }
    topics :=
      [{ title := "Topic 1", summary := "First",
         lessons := [{ title := "Lesson 1.1", content := "Content",
                       imageDescription := none }],
         quiz := some { title := "Quiz 1", description := none,
                        questions := [tfQuestion] } },
       topicTwo] }

/-- An environment where topic 0's create-call fails while everything else
succeeds, concrete input for Claims C5 and C10. -/
def envTopic0Fails : LmsEnv :=
  { configOk := true
    courseResp := some (RespShape.rootId 500)
    topicResp := fun i => if i = 0 then none else some (RespShape.dataObjId (600 + i))
    lessonResp := fun _ _ => some (RespShape.dataBare 700)
    quizResp := fun _ => some (RespShape.dataBare 800)
    questionOk := fun _ _ => true
    courseImage := none
    courseUpload := none
    lessonImage := fun _ _ => some "https://img.example/lesson.png"
    lessonUpload := fun _ _ => some 901 }

/-- A raw vector-index match with the minimum possible relevance score and
a one-character text, concrete input for Claim C9. -/
def lowScoreMatch : PineMatch :=
  { metaText := some "x", metaContent := none, metaFileName := none,
    metaFileName2 := none, metaSource := none, metaFileId := none,
    metaMime := none, metaMime2 := none, score := some (-1), id := some "m1" }

/-- A raw vector-index match that passes the `query-course-content` route's
filters: score above 0.3 and text longer than 50 characters. -/
def goodMatch : PineMatch :=
  { metaText := some "Fall protection equipment must be inspected before every use on site.",
    metaContent := none, metaFileName := some "fall-protection.pdf",
    metaFileName2 := none, metaSource := none, metaFileId := some "f77",
    metaMime := some "application/pdf", metaMime2 := none,
    score := some (mkRat 1 2), id := some "m2" }

section HelperLemmas

theorem jsOrStr_some_of_ne (a : String) (b : Option String) (ha : a ≠ "") :
    jsOrStr (some a) b = some a := by
  simp [jsOrStr, ha]

theorem getElem?_eq_some_getD (l : List String) (i : Nat) (h : i < l.length) :
    l[i]? = some (l.getD i "") := by
  rw [List.getD_eq_getElem?_getD, List.getElem?_eq_getElem h]
  simp [List.getElem?_eq_getElem h]

theorem mem_publishLesson (env : LmsEnv) (i j : Nat) (c : LmsCall)
    (h : c ∈ publishLesson env i j) :
    c = LmsCall.createLesson i j ∨ c = LmsCall.genLessonImage i j ∨
    c = LmsCall.uploadLessonImage i j ∨ c = LmsCall.setLessonThumbnail i j := by
  unfold publishLesson at h
  rcases List.mem_cons.mp h with h | h
  · exact Or.inl h
  · split at h
    · simp at h
    · split at h
      · rcases List.mem_cons.mp h with h | h
        · exact Or.inr (Or.inl h)
        · split at h
          · simp at h
          · rcases List.mem_cons.mp h with h | h
            · exact Or.inr (Or.inr (Or.inl h))
            · split at h
              · simp at h
              · simp at h
                exact Or.inr (Or.inr (Or.inr h))
      · simp at h

theorem mem_publishQuiz (env : LmsEnv) (i : Nat) (qz : GenQuiz) (c : LmsCall)
    (h : c ∈ publishQuiz env i qz) :
    c = LmsCall.createQuiz i ∨ ∃ k, c = LmsCall.createQuestion i k := by
  unfold publishQuiz at h
  rcases List.mem_cons.mp h with h | h
  · exact Or.inl h
  · split at h
    · simp at h
    · split at h
      · simp only [List.mem_map] at h
        obtain ⟨k, _, hk⟩ := h
        exact Or.inr ⟨k, hk.symm⟩
      · simp at h

theorem genLessonImage_mem_publishLesson (env : LmsEnv) (i j : Nat)
    (h : lessonCreatedOk env i j = true) :
    LmsCall.genLessonImage i j ∈ publishLesson env i j := by
  cases heq : env.lessonResp i j with
  | none => simp [lessonCreatedOk, heq] at h
  | some sh =>
    simp only [lessonCreatedOk, heq] at h
    simp [publishLesson, heq, h]

theorem mem_publishTopic (env : LmsEnv) (i : Nat) (t : GenTopic) (c : LmsCall)
    (h : c ∈ publishTopic env i t) :
    c = LmsCall.createTopic i ∨
    (topicCreatedOk env i = true ∧
      ((∃ j, j < t.lessons.length ∧ c ∈ publishLesson env i j) ∨
        (∃ qz, t.quiz = some qz ∧ c ∈ publishQuiz env i qz))) := by
  unfold publishTopic at h
  rcases List.mem_cons.mp h with h | h
  · exact Or.inl h
  · right
    split at h
    · simp at h
    · next sh heq =>
      split at h
      · next htruthy =>
        constructor
        · simp [topicCreatedOk, heq, htruthy]
        · rcases List.mem_append.mp h with h | h
          · simp only [List.mem_flatMap, List.mem_range] at h
            obtain ⟨j, hj, hmem⟩ := h
            exact Or.inl ⟨j, hj, hmem⟩
          · split at h
            · next qz hqz => exact Or.inr ⟨qz, hqz, h⟩
            · simp at h
      · simp at h

theorem callTopicIdx_ne_course (env : LmsEnv) (i : Nat) (t : GenTopic) (c : LmsCall)
    (h : c ∈ publishTopic env i t) :
    c ≠ LmsCall.createCourse ∧ c ≠ LmsCall.genCourseImage ∧
    c ≠ LmsCall.uploadCourseImage ∧ c ≠ LmsCall.setCourseThumbnail := by
  rcases mem_publishTopic env i t c h with h | ⟨_, h | h⟩
  · subst h; exact ⟨by simp, by simp, by simp, by simp⟩
  · obtain ⟨j, _, hm⟩ := h
    rcases mem_publishLesson env i j c hm with h | h | h | h <;>
      (subst h; exact ⟨by simp, by simp, by simp, by simp⟩)
  · obtain ⟨qz, _, hm⟩ := h
    rcases mem_publishQuiz env i qz c hm with h | ⟨k, h⟩ <;>
      (subst h; exact ⟨by simp, by simp, by simp, by simp⟩)

theorem mem_publishTopicsAux (env : LmsEnv) (ts : List GenTopic) (k : Nat) (c : LmsCall)
    (h : c ∈ publishTopicsAux env k ts) :
    ∃ m t, m < ts.length ∧ ts[m]? = some t ∧ c ∈ publishTopic env (k + m) t := by
  induction ts generalizing k with
  | nil => simp [publishTopicsAux] at h
  | cons t ts ih =>
    rcases List.mem_append.mp h with h | h
    · exact ⟨0, t, by simp, by simp, by simpa using h⟩
    · obtain ⟨m, t₂, hm, ht, hmem⟩ := ih (k + 1) h
      refine ⟨m + 1, t₂, by simpa using hm, by simpa using ht, ?_⟩
      have : k + 1 + m = k + (m + 1) := by omega
      rwa [this] at hmem

theorem createTopic_mem_publishTopicsAux (env : LmsEnv) (ts : List GenTopic) (k m : Nat)
    (h : m < ts.length) :
    LmsCall.createTopic (k + m) ∈ publishTopicsAux env k ts := by
  induction ts generalizing k m with
  | nil => simp at h
  | cons t ts ih =>
    cases m with
    | zero =>
      apply List.mem_append.mpr
      exact Or.inl (by simp [publishTopic])
    | succ m =>
      apply List.mem_append.mpr
      right
      have hm : m < ts.length := by simpa using h
      have := ih (k + 1) m hm
      have harith : k + 1 + m = k + (m + 1) := by omega
      rwa [harith] at this

theorem uploadLessonImage_mem_publishLesson (env : LmsEnv) (i j : Nat) (url : String)
    (h : lessonCreatedOk env i j = true) (himg : env.lessonImage i j = some url) :
    LmsCall.uploadLessonImage i j ∈ publishLesson env i j := by
  cases heq : env.lessonResp i j with
  | none => simp [lessonCreatedOk, heq] at h
  | some sh =>
    simp only [lessonCreatedOk, heq] at h
    simp [publishLesson, heq, h, himg]

theorem mem_publishTopicsAux_of_mem_publishLesson (env : LmsEnv) (ts : List GenTopic)
    (k m j : Nat) (t : GenTopic) (c : LmsCall)
    (hm : ts[m]? = some t) (hj : j < t.lessons.length)
    (htop : topicCreatedOk env (k + m) = true)
    (hc : c ∈ publishLesson env (k + m) j) :
    c ∈ publishTopicsAux env k ts := by
  induction ts generalizing k m with
  | nil => simp at hm
  | cons t₀ ts ih =>
    cases m with
    | zero =>
      apply List.mem_append.mpr
      left
      simp only [List.getElem?_cons_zero, Option.some_inj] at hm
      subst hm
      simp only [Nat.add_zero] at htop hc ⊢
      cases heq : env.topicResp k with
      | none => simp [topicCreatedOk, heq] at htop
      | some sh =>
        simp only [topicCreatedOk, heq] at htop
        unfold publishTopic
        apply List.mem_cons.mpr
        right
        rw [heq]
        simp only [htop, if_true]
        apply List.mem_append.mpr
        left
        exact List.mem_flatMap.mpr ⟨j, List.mem_range.mpr hj, hc⟩
    | succ m =>
      apply List.mem_append.mpr
      right
      have hm₂ : ts[m]? = some t := by simpa using hm
      have harith : k + (m + 1) = k + 1 + m := by omega
      rw [harith] at htop hc
      exact ih k.succ m hm₂ htop hc

theorem mem_courseImageCalls (env : LmsEnv) (flag : JSFlag) (c : LmsCall)
    (h : c ∈ courseImageCalls env flag) :
    c = LmsCall.genCourseImage ∨ c = LmsCall.uploadCourseImage ∨
    c = LmsCall.setCourseThumbnail := by
  unfold courseImageCalls at h
  split at h
  · rcases List.mem_cons.mp h with h | h
    · exact Or.inl h
    · split at h
      · simp at h
      · rcases List.mem_cons.mp h with h | h
        · exact Or.inr (Or.inl h)
        · split at h
          · simp at h
          · simp at h
            exact Or.inr (Or.inr h)
  · simp at h

theorem genCourseImage_mem_courseImageCalls_iff (env : LmsEnv) (flag : JSFlag) :
    LmsCall.genCourseImage ∈ courseImageCalls env flag ↔ flag = JSFlag.jbool true := by
  unfold courseImageCalls
  split
  · next hflag => simp [hflag]
  · next hflag => simp [hflag]

theorem createCourseInTutorLMS_trace (env : LmsEnv) (cs : CourseStructure)
    (flag : JSFlag) (baseUrl : String) (sh : RespShape)
    (hcfg : env.configOk = true) (hresp : env.courseResp = some sh) :
    (createCourseInTutorLMS env cs flag baseUrl).1 =
      LmsCall.createCourse :: courseImageCalls env flag ++
        publishTopicsAux env 0 cs.topics := by
  simp [createCourseInTutorLMS, hcfg, hresp]

theorem createCourseInTutorLMS_result (env : LmsEnv) (cs : CourseStructure)
    (flag : JSFlag) (baseUrl : String) (sh : RespShape)
    (hcfg : env.configOk = true) (hresp : env.courseResp = some sh) :
    (createCourseInTutorLMS env cs flag baseUrl).2 =
      PublishOutcome.ok (courseIdExtract sh)
        (baseUrl ++ "course/" ++ slugify cs.course.title ++ "/")
        (inputStats cs) := by
  simp [createCourseInTutorLMS, hcfg, hresp]

theorem mem_publishTopic_idx_created (env : LmsEnv) (m : Nat) (t : GenTopic)
    (c : LmsCall) (h : c ∈ publishTopic env m t) :
    callTopicIdx c = some m ∧
      (c = LmsCall.createTopic m ∨ topicCreatedOk env m = true) := by
  rcases mem_publishTopic env m t c h with h | ⟨hok, h | h⟩
  · subst h
    exact ⟨rfl, Or.inl rfl⟩
  · obtain ⟨j, _, hmem⟩ := h
    rcases mem_publishLesson env m j c hmem with h | h | h | h <;> subst h <;>
      exact ⟨rfl, Or.inr hok⟩
  · obtain ⟨qz, _, hmem⟩ := h
    rcases mem_publishQuiz env m qz c hmem with h | ⟨k, h⟩ <;> subst h <;>
      exact ⟨rfl, Or.inr hok⟩

theorem not_mem_publishTopicsAux_of_failed (env : LmsEnv) (ts : List GenTopic)
    (k i : Nat) (c : LmsCall) (hfail : env.topicResp i = none)
    (hidx : callTopicIdx c = some i) (hne : c ≠ LmsCall.createTopic i) :
    c ∉ publishTopicsAux env k ts := by
  intro hmem
  obtain ⟨m, t, _, _, hsub⟩ := mem_publishTopicsAux env ts k c hmem
  obtain ⟨hidx2, hcase⟩ := mem_publishTopic_idx_created env (k + m) t c hsub
  obtain rfl : i = k + m := Option.some_inj.mp (hidx.symm.trans hidx2)
  rcases hcase with h | h
  · exact hne h
  · simp [topicCreatedOk, hfail] at h

theorem not_mem_trace_of_topic_failed (env : LmsEnv) (cs : CourseStructure)
    (flag : JSFlag) (baseUrl : String) (sh : RespShape) (i : Nat)
    (hcfg : env.configOk = true) (hresp : env.courseResp = some sh)
    (hfail : env.topicResp i = none) (c : LmsCall)
    (hidx : callTopicIdx c = some i) (hne : c ≠ LmsCall.createTopic i) :
    c ∉ (createCourseInTutorLMS env cs flag baseUrl).1 := by
  rw [createCourseInTutorLMS_trace env cs flag baseUrl sh hcfg hresp]
  intro hmem
  rcases List.mem_cons.mp hmem with h | h
  · subst h
    simp [callTopicIdx] at hidx
  · rcases List.mem_append.mp h with h | h
    · rcases mem_courseImageCalls env flag c h with h | h | h <;> subst h <;>
        simp [callTopicIdx] at hidx
    · exact not_mem_publishTopicsAux_of_failed env cs.topics 0 i c hfail hidx hne h

end HelperLemmas

/-- Claim C1: for every question published, the upstream payload encodes
correctness by kind — a single_choice question's `correct_answer` is the
option text at the chosen correct index (not the index itself); a
multiple_choice question's `correct_answer` is the array of option texts at
the chosen correct indices; a true_false question's `correct_answer` is the
literal string "true" or "false"; and an open_ended question's payload
contains neither an `options` nor a `correct_answer` field. -/
theorem c1_question_kind_serialization (quizId : JVal) (q : GenQuestion) :
    (q.qtype = "single_choice" →
      ∀ os i txt, q.options = some os → q.correctAnswer = some i →
        os[i]? = some txt → txt ≠ "" →
        (mkQuestionData quizId q).options = some os ∧
        (mkQuestionData quizId q).correct_answer = some (CorrectAnswer.str txt)) ∧
    (q.qtype = "multiple_choice" →
      ∀ os is (txts : List String), q.options = some os → q.correctAnswers = some is →
        (is.map fun i => (os[i]? : Option String)) = txts.map some →
        (mkQuestionData quizId q).options = some os ∧
        (mkQuestionData quizId q).correct_answer =
          some (CorrectAnswer.arr (txts.map some))) ∧
    (q.qtype = "true_false" →
      (mkQuestionData quizId q).correct_answer = some (CorrectAnswer.str "true") ∨
      (mkQuestionData quizId q).correct_answer = some (CorrectAnswer.str "false")) ∧
    (q.qtype = "open_ended" →
      (mkQuestionData quizId q).options = none ∧
      (mkQuestionData quizId q).correct_answer = none) := by
  refine ⟨?_, ?_, ?_, ?_⟩
  · intro ht os i txt hos hi hidx hne
    constructor
    · simp [mkQuestionData, ht, hos]
    · simp [mkQuestionData, ht, hos, hi, jsOptIndex, hidx, jsOrStr, hne]
  · intro ht os is txts hos his hmap
    constructor
    · simp [mkQuestionData, ht, hos]
    · simp [mkQuestionData, ht, hos, his, jsOptIndex, hmap]
  · intro ht
    by_cases h0 : q.correctAnswer = some 0
    · left
      simp [mkQuestionData, ht, h0]
    · right
      simp [mkQuestionData, ht, h0]
  · intro ht
    constructor <;> simp [mkQuestionData, ht]

/-- Witness for Claim C1 at concrete questions of all four kinds. -/
theorem c1_question_kind_serialization_witness :
    ((mkQuestionData (JVal.num 42) scQuestion).options =
        some ["Hard hat", "Gloves", "Goggles", "Boots"] ∧
      (mkQuestionData (JVal.num 42) scQuestion).correct_answer =
        some (CorrectAnswer.str "Hard hat")) ∧
    (mkQuestionData (JVal.num 42) mcQuestion).correct_answer =
      some (CorrectAnswer.arr [some "Hard hat", some "Goggles"]) ∧
    ((mkQuestionData (JVal.num 42) tfQuestion).correct_answer =
        some (CorrectAnswer.str "true") ∨
      (mkQuestionData (JVal.num 42) tfQuestion).correct_answer =
        some (CorrectAnswer.str "false")) ∧
    (mkQuestionData (JVal.num 42) oeQuestion).options = none ∧
    (mkQuestionData (JVal.num 42) oeQuestion).correct_answer = none := by
  have h1 := (c1_question_kind_serialization (JVal.num 42) scQuestion).1 rfl
    ["Hard hat", "Gloves", "Goggles", "Boots"] 0 "Hard hat" rfl rfl
    (by decide) (by decide)
  have h2 := ((c1_question_kind_serialization (JVal.num 42) mcQuestion).2.1 rfl
    ["Hard hat", "Sandwich", "Goggles"] [0, 2] ["Hard hat", "Goggles"]
    rfl rfl (by decide)).2
  have h3 := (c1_question_kind_serialization (JVal.num 42) tfQuestion).2.2.1 rfl
  have h4 := (c1_question_kind_serialization (JVal.num 42) oeQuestion).2.2.2 rfl
  exact ⟨⟨h1.1, h1.2⟩, h2, h3, h4⟩

/-- Claim C6 (amended): the topic, lesson and quiz create-calls extract the
id correctly under all three observed response shapes, and the course
create-call extracts it correctly under the bare-`data` and root-level
shapes; on the object-wrapped shape the course extraction yields the
wrapper object itself, not the id. -/
theorem c6_id_extraction_shapes (n : Nat) (h : n ≠ 0) :
    nodeIdExtract (RespShape.dataObjId n) = some (JVal.num n) ∧
    nodeIdExtract (RespShape.dataBare n) = some (JVal.num n) ∧
    nodeIdExtract (RespShape.rootId n) = some (JVal.num n) ∧
    courseIdExtract (RespShape.dataBare n) = some (JVal.num n) ∧
    courseIdExtract (RespShape.rootId n) = some (JVal.num n) ∧
    courseIdExtract (RespShape.dataObjId n) = some (JVal.objId n) := by
  simp [nodeIdExtract, courseIdExtract, h]

/-- Witness for Claim C6 at the concrete id 7. -/
theorem c6_id_extraction_shapes_witness :
    (7 : Nat) ≠ 0 ∧
    (nodeIdExtract (RespShape.dataObjId 7) = some (JVal.num 7) ∧
      nodeIdExtract (RespShape.dataBare 7) = some (JVal.num 7) ∧
      nodeIdExtract (RespShape.rootId 7) = some (JVal.num 7) ∧
      courseIdExtract (RespShape.dataBare 7) = some (JVal.num 7) ∧
      courseIdExtract (RespShape.rootId 7) = some (JVal.num 7) ∧
      courseIdExtract (RespShape.dataObjId 7) = some (JVal.objId 7)) :=
  ⟨by decide, c6_id_extraction_shapes 7 (by decide)⟩

/-- Claim C6 counterexample: on the object-wrapped shape `{data:{id:5}}`
the course-id extraction `courseResult.data || courseResult.id` returns
the wrapper object, which is not the numeric id 5 — so the extraction is
not correct for the course call under all three shapes. -/
theorem c6_course_id_extraction_counterexample :
    courseIdExtract (RespShape.dataObjId 5) = some (JVal.objId 5) ∧
    JVal.objId 5 ≠ JVal.num 5 :=
  ⟨rfl, by decide⟩

/-- Claim C7 (amended): every quiz-create payload carries the fixed scoring
policy — 3 allowed attempts, passing grade 70, randomized question order,
`max_questions_for_answer` equal to the quiz's question count — and a fixed
45-minute time limit that does not depend on the question count. -/
theorem c7_quiz_payload_policy (topicId : JVal) (qz : GenQuiz) :
    (mkQuizPayload topicId qz).quiz_options.attempts_allowed = 3 ∧
    (mkQuizPayload topicId qz).quiz_options.passing_grade = 70 ∧
    (mkQuizPayload topicId qz).quiz_options.questions_order = "rand" ∧
    (mkQuizPayload topicId qz).quiz_options.time_limit =
      { time_value := 45, time_type := "minutes" } ∧
    (mkQuizPayload topicId qz).quiz_options.max_questions_for_answer =
      qz.questions.length :=
  ⟨rfl, rfl, rfl, rfl, rfl⟩

/-- Claim C7 counterexample: a 1-question quiz and a 20-question quiz get
the identical 45-minute time limit, so the time budget is not scaled by
the quiz's question count. -/
theorem c7_quiz_time_budget_counterexample :
    quizOneQuestion.questions.length = 1 ∧
    quizTwentyQuestions.questions.length = 20 ∧
    (mkQuizPayload (JVal.num 7) quizOneQuestion).quiz_options.time_limit =
      (mkQuizPayload (JVal.num 7) quizTwentyQuestions).quiz_options.time_limit ∧
    (mkQuizPayload (JVal.num 7) quizOneQuestion).quiz_options.time_limit.time_value
      = 45 := by
  refine ⟨rfl, ?_, rfl, rfl⟩
  simp [quizTwentyQuestions]

/-- Claim C3 (amended): whenever the root course create-call succeeds, the
publish result is overall success regardless of deeper failures, and its
statistics are the topic/lesson/quiz counts present in the input tree,
independent of which create-calls succeeded. -/
theorem c3_publish_success_and_input_statistics (env : LmsEnv)
    (cs : CourseStructure) (flag : JSFlag) (baseUrl : String) (sh : RespShape)
    (hcfg : env.configOk = true) (hresp : env.courseResp = some sh) :
    (createCourseInTutorLMS env cs flag baseUrl).2 =
      PublishOutcome.ok (courseIdExtract sh)
        (baseUrl ++ "course/" ++ slugify cs.course.title ++ "/")
        { totalTopics := cs.topics.length
          totalLessons := (cs.topics.map fun t => t.lessons.length).sum
          totalQuizzes := (cs.topics.filter fun t => t.quiz.isSome).length } :=
  createCourseInTutorLMS_result env cs flag baseUrl sh hcfg hresp

/-- Witness for Claim C3 at a concrete environment and course structure. -/
theorem c3_publish_success_and_input_statistics_witness :
    envQuizFail.configOk = true ∧
    envQuizFail.courseResp = some (RespShape.dataBare 101) ∧
    (createCourseInTutorLMS envQuizFail csOneQuiz (JSFlag.jbool false) "").2 =
      PublishOutcome.ok (courseIdExtract (RespShape.dataBare 101))
        ("" ++ "course/" ++ slugify csOneQuiz.course.title ++ "/")
        { totalTopics := 1, totalLessons := 1, totalQuizzes := 1 } :=
  ⟨rfl, rfl, c3_publish_success_and_input_statistics envQuizFail csOneQuiz
    (JSFlag.jbool false) "" (RespShape.dataBare 101) rfl rfl⟩

/-- Claim C3 counterexample: the quiz create-call of the only topic is
attempted and fails (`quizResp 0 = none`), yet the run reports success with
`statistics.totalQuizzes = 1` — the input-tree count — and not 0. -/
theorem c3_statistics_not_actual_counterexample :
    envQuizFail.quizResp 0 = none ∧
    LmsCall.createQuiz 0 ∈
      (createCourseInTutorLMS envQuizFail csOneQuiz (JSFlag.jbool false) "").1 ∧
    (createCourseInTutorLMS envQuizFail csOneQuiz (JSFlag.jbool false) "").2 =
      PublishOutcome.ok (some (JVal.num 101)) "course/safety-basics/"
        { totalTopics := 1, totalLessons := 1, totalQuizzes := 1 } ∧
    (1 : Nat) ≠ 0 := by
  refine ⟨rfl, by decide, by decide, by decide⟩

/-- Claim C5: when topic `i`'s create-call fails, the publisher skips that
topic's lessons and quiz entirely (no lesson, quiz or question call carries
index `i`), still attempts every topic of the run, and the run still
reports success given the root course was created. -/
theorem c5_topic_failure_containment (env : LmsEnv) (cs : CourseStructure)
    (flag : JSFlag) (baseUrl : String) (sh : RespShape) (i : Nat)
    (hcfg : env.configOk = true) (hresp : env.courseResp = some sh)
    (hfail : env.topicResp i = none) :
    (∀ m, m < cs.topics.length →
      LmsCall.createTopic m ∈ (createCourseInTutorLMS env cs flag baseUrl).1) ∧
    (∀ j, LmsCall.createLesson i j ∉ (createCourseInTutorLMS env cs flag baseUrl).1) ∧
    LmsCall.createQuiz i ∉ (createCourseInTutorLMS env cs flag baseUrl).1 ∧
    (∀ k, LmsCall.createQuestion i k ∉ (createCourseInTutorLMS env cs flag baseUrl).1) ∧
    (createCourseInTutorLMS env cs flag baseUrl).2 =
      PublishOutcome.ok (courseIdExtract sh)
        (baseUrl ++ "course/" ++ slugify cs.course.title ++ "/")
        (inputStats cs) := by
  refine ⟨?_, ?_, ?_, ?_,
    createCourseInTutorLMS_result env cs flag baseUrl sh hcfg hresp⟩
  · intro m hm
    rw [createCourseInTutorLMS_trace env cs flag baseUrl sh hcfg hresp]
    apply List.mem_cons.mpr
    right
    apply List.mem_append.mpr
    right
    simpa using createTopic_mem_publishTopicsAux env cs.topics 0 m hm
  · intro j
    exact not_mem_trace_of_topic_failed env cs flag baseUrl sh i hcfg hresp hfail
      (LmsCall.createLesson i j) rfl (by simp)
  · exact not_mem_trace_of_topic_failed env cs flag baseUrl sh i hcfg hresp hfail
      (LmsCall.createQuiz i) rfl (by simp)
  · intro k
    exact not_mem_trace_of_topic_failed env cs flag baseUrl sh i hcfg hresp hfail
      (LmsCall.createQuestion i k) rfl (by simp)

/-- Witness for Claim C5: topic 0 fails, topic 1 is still attempted, and
the run reports success. -/
theorem c5_topic_failure_containment_witness :
    envTopic0Fails.topicResp 0 = none ∧
    LmsCall.createTopic 0 ∈
      (createCourseInTutorLMS envTopic0Fails csTwoTopics (JSFlag.jbool false) "").1 ∧
    LmsCall.createTopic 1 ∈
      (createCourseInTutorLMS envTopic0Fails csTwoTopics (JSFlag.jbool false) "").1 ∧
    LmsCall.createLesson 0 0 ∉
      (createCourseInTutorLMS envTopic0Fails csTwoTopics (JSFlag.jbool false) "").1 ∧
    LmsCall.createQuiz 0 ∉
      (createCourseInTutorLMS envTopic0Fails csTwoTopics (JSFlag.jbool false) "").1 ∧
    (createCourseInTutorLMS envTopic0Fails csTwoTopics (JSFlag.jbool false) "").2 =
      PublishOutcome.ok (courseIdExtract (RespShape.rootId 500))
        ("" ++ "course/" ++ slugify csTwoTopics.course.title ++ "/")
        (inputStats csTwoTopics) := by
  have h := c5_topic_failure_containment envTopic0Fails csTwoTopics
    (JSFlag.jbool false) "" (RespShape.rootId 500) 0 rfl rfl rfl
  exact ⟨rfl, h.1 0 (by decide), h.1 1 (by decide), h.2.1 0, h.2.2.1, h.2.2.2.2⟩

/-- Claim C10: the generateFeaturedImage flag gates only the course-level
thumbnail and only when it is strictly the boolean `true` (any other
value, truthy values included, skips it); lesson thumbnail generation is
attempted for every successfully created lesson regardless of the flag,
and the generated lesson image is uploaded. -/
theorem c10_image_flag_gating (env : LmsEnv) (cs : CourseStructure)
    (flag : JSFlag) (baseUrl : String) (sh : RespShape)
    (hcfg : env.configOk = true) (hresp : env.courseResp = some sh) :
    (LmsCall.genCourseImage ∈ (createCourseInTutorLMS env cs flag baseUrl).1 ↔
      flag = JSFlag.jbool true) ∧
    (∀ i t j, cs.topics[i]? = some t → j < t.lessons.length →
      topicCreatedOk env i = true → lessonCreatedOk env i j = true →
      LmsCall.genLessonImage i j ∈ (createCourseInTutorLMS env cs flag baseUrl).1 ∧
      (∀ url, env.lessonImage i j = some url →
        LmsCall.uploadLessonImage i j ∈ (createCourseInTutorLMS env cs flag baseUrl).1)) := by
  rw [createCourseInTutorLMS_trace env cs flag baseUrl sh hcfg hresp]
  constructor
  · constructor
    · intro hmem
      rcases List.mem_cons.mp hmem with h | h
      · simp at h
      · rcases List.mem_append.mp h with h | h
        · exact (genCourseImage_mem_courseImageCalls_iff env flag).mp h
        · obtain ⟨m, t, _, _, hsub⟩ := mem_publishTopicsAux env cs.topics 0 _ h
          obtain ⟨hidx, _⟩ := mem_publishTopic_idx_created env (0 + m) t _ hsub
          simp [callTopicIdx] at hidx
    · intro hflag
      apply List.mem_cons.mpr
      right
      apply List.mem_append.mpr
      left
      exact (genCourseImage_mem_courseImageCalls_iff env flag).mpr hflag
  · intro i t j hm hj htop hles
    constructor
    · apply List.mem_cons.mpr
      right
      apply List.mem_append.mpr
      right
      exact mem_publishTopicsAux_of_mem_publishLesson env cs.topics 0 i j t _
        hm hj (by simpa using htop)
        (by simpa using genLessonImage_mem_publishLesson env i j hles)
    · intro url hurl
      apply List.mem_cons.mpr
      right
      apply List.mem_append.mpr
      right
      exact mem_publishTopicsAux_of_mem_publishLesson env cs.topics 0 i j t _
        hm hj (by simpa using htop)
        (by simpa using uploadLessonImage_mem_publishLesson env i j url hles hurl)

/-- Witness for Claim C10: under the truthy non-boolean flag value 1 the
course image is skipped while the lesson image of the successfully created
lesson 0 of topic 1 is generated and uploaded. -/
theorem c10_image_flag_gating_witness :
    JSFlag.jnum 1 ≠ JSFlag.jbool true ∧
    LmsCall.genCourseImage ∉
      (createCourseInTutorLMS envTopic0Fails csTwoTopics (JSFlag.jnum 1) "").1 ∧
    LmsCall.genLessonImage 1 0 ∈
      (createCourseInTutorLMS envTopic0Fails csTwoTopics (JSFlag.jnum 1) "").1 ∧
    LmsCall.uploadLessonImage 1 0 ∈
      (createCourseInTutorLMS envTopic0Fails csTwoTopics (JSFlag.jnum 1) "").1 := by
  have h := c10_image_flag_gating envTopic0Fails csTwoTopics (JSFlag.jnum 1) ""
    (RespShape.rootId 500) rfl rfl
  have hlesson := h.2 1 topicTwo 0 (by decide) (by decide) (by decide) (by decide)
  exact ⟨by decide, fun hmem => by simpa using h.1.mp hmem, hlesson.1,
    hlesson.2 "https://img.example/lesson.png" rfl⟩

/-- Claim C8: every pipeline run ends with exactly one terminal event —
a complete event or an error event — which is the last event of the
stream, and the stream is closed afterwards; no run ends silently or
leaves the stream unterminated. -/
theorem c8_single_terminal_event (r : RetrievalOutcome)
    (synth : List CourseContent → SynthOutcome) (pub : PublishOutcome) :
    (executeCourseCreation r synth pub).closed = true ∧
    ((executeCourseCreation r synth pub).events.filter isTerminal).length = 1 ∧
    ((executeCourseCreation r synth pub).events.getLast?.map isTerminal) =
      some true := by
  rcases r with chunks | msg
  · rcases hs : synth chunks with stats | msg
    · rcases pub with ⟨cid, permalink, pstats⟩ | msg
      · refine ⟨?_, ?_, ?_⟩ <;>
          simp [executeCourseCreation, hs, isTerminal, initialStatusEvent,
            progressEvent, completeEvent, errorEvent]
      · refine ⟨?_, ?_, ?_⟩ <;>
          simp [executeCourseCreation, hs, isTerminal, initialStatusEvent,
            progressEvent, completeEvent, errorEvent]
    · refine ⟨?_, ?_, ?_⟩ <;>
        simp [executeCourseCreation, hs, isTerminal, initialStatusEvent,
          progressEvent, completeEvent, errorEvent]
  · exact ⟨rfl, rfl, rfl⟩

/-- Claim C4 (amended): within one run the progress values of the status,
progress and complete events are monotonically non-decreasing, but the
error event always carries the constant progress 0, which is smaller than
earlier progress values whenever a stage past the first checkpoint
fails. -/
theorem c4_progress_monotonic_outside_error (r : RetrievalOutcome)
    (synth : List CourseContent → SynthOutcome) (pub : PublishOutcome) :
    nonDecreasing (((executeCourseCreation r synth pub).events.filter
      fun e => !(e.etype == "error")).map fun e => e.progress) = true ∧
    ∀ e ∈ (executeCourseCreation r synth pub).events,
      e.etype = "error" → e.progress = 0 := by
  rcases r with chunks | msg
  · rcases hs : synth chunks with stats | msg
    · rcases pub with ⟨cid, permalink, pstats⟩ | msg
      · constructor
        · simp [executeCourseCreation, hs, nonDecreasing, initialStatusEvent,
            progressEvent, completeEvent, errorEvent]
        · intro e he het
          simp only [executeCourseCreation, hs, List.mem_cons, List.not_mem_nil, or_false] at he
          rcases he with he | he | he | he | he | he | he | he | he <;> subst he <;>
            first
              | rfl
              | simp [initialStatusEvent, progressEvent, completeEvent] at het
      · constructor
        · simp [executeCourseCreation, hs, nonDecreasing, initialStatusEvent,
            progressEvent, completeEvent, errorEvent]
        · intro e he het
          simp only [executeCourseCreation, hs, List.mem_cons, List.not_mem_nil, or_false] at he
          rcases he with he | he | he | he | he | he | he <;> subst he <;>
            first
              | rfl
              | simp [initialStatusEvent, progressEvent, errorEvent] at het
    · constructor
      · simp [executeCourseCreation, hs, nonDecreasing, initialStatusEvent,
          progressEvent, errorEvent]
      · intro e he het
        simp only [executeCourseCreation, hs, List.mem_cons, List.not_mem_nil, or_false] at he
        rcases he with he | he | he | he | he <;> subst he <;>
          first
            | rfl
            | simp [initialStatusEvent, progressEvent, errorEvent] at het
  · constructor
    · exact rfl
    · intro e he het
      simp only [executeCourseCreation, List.mem_cons, List.not_mem_nil,
        or_false] at he
      rcases he with he | he | he <;> subst he <;>
        first
          | rfl
          | simp [initialStatusEvent, progressEvent, errorEvent] at het

/-- Witness for Claim C4 at a concrete failing run: the non-error events
carry the non-decreasing progress values and the error event carries 0. -/
theorem c4_progress_monotonic_outside_error_witness :
    nonDecreasing (((executeCourseCreation (RetrievalOutcome.failure "down")
        (fun _ => SynthOutcome.failure "unused")
        (PublishOutcome.err "unused")).events.filter
      fun e => !(e.etype == "error")).map fun e => e.progress) = true ∧
    (errorEvent "down").progress = 0 := by
  have h := c4_progress_monotonic_outside_error (RetrievalOutcome.failure "down")
    (fun _ => SynthOutcome.failure "unused") (PublishOutcome.err "unused")
  exact ⟨h.1, h.2 (errorEvent "down") (by simp [executeCourseCreation, jsOrDefault]) rfl⟩

/-- Claim C4 counterexample: in a run whose retrieval stage fails, the
full event sequence carries the progress values 0, 10, 0 — the error
event's progress 0 is smaller than the earlier 10, so the sequence over
all events (error events included) is not monotonically non-decreasing. -/
theorem c4_progress_not_monotonic_counterexample :
    (retrievalFailureRun.events.map fun e => e.progress) = [0, 10, 0] ∧
    nonDecreasing [0, 10, 0] = false :=
  ⟨rfl, rfl⟩

/-- Claim C2 (amended): a retrieval-stage failure (unreachable or
unconfigured backend, surfaced as a non-success result) is fatal: the run
terminates with an error event and the synthesis stage is not invoked.
Only a successful retrieval that returns zero chunks degrades gracefully —
synthesis is then invoked with the empty chunk list and
`generateEnhancedCourse` substitutes the general-domain-knowledge fallback
text. -/
theorem c2_retrieval_failure_fatal_empty_ok (msg : String)
    (synth : List CourseContent → SynthOutcome) (pub : PublishOutcome) :
    (executeCourseCreation (RetrievalOutcome.failure msg) synth pub).invocations.any
      isSynthInvocation = false ∧
    ((executeCourseCreation (RetrievalOutcome.failure msg) synth pub).events.getLast?.map
      fun e => e.etype) = some "error" ∧
    StageInvocation.synthesis [] ∈
      (executeCourseCreation (RetrievalOutcome.ok []) synth pub).invocations ∧
    contentTextOf [] =
      "No specific training materials found. Generate comprehensive content based on industry best practices and OSHA standards." := by
  refine ⟨rfl, rfl, ?_, rfl⟩
  rcases hs : synth [] with stats | m
  · rcases pub with ⟨cid, permalink, pstats⟩ | m2
    · simp [executeCourseCreation, hs]
    · simp [executeCourseCreation, hs]
  · simp [executeCourseCreation, hs]

/-- Claim C2 counterexample: in a run where the retrieval backend is
unreachable, the run terminates with an error event, the stream is closed,
and the synthesis stage is never invoked — it is not called with an empty
chunk list. -/
theorem c2_retrieval_failure_fatal_counterexample :
    retrievalFailureRun.invocations = [StageInvocation.retrieval] ∧
    retrievalFailureRun.invocations.any isSynthInvocation = false ∧
    (retrievalFailureRun.events.getLast?.map fun e => e.etype) = some "error" ∧
    retrievalFailureRun.closed = true :=
  ⟨rfl, rfl, rfl, rfl⟩

/-- Claim C9 (amended): the retriever feeding the synthesizer
(`queryPineconeContent`) drops exactly the chunks with empty text and
applies no relevance-score filter at all; the separate
`query-course-content` route does post-filter, keeping only chunks with
score above 0.3 and text length above 50. -/
theorem c9_retrieval_post_filtering (ms : List PineMatch) :
    (∀ c ∈ queryPineconeAllContent ms, 1 ≤ c.text.length) ∧
    (∀ c ∈ relevantContent ms, 50 < c.text.length ∧
      ∃ q, c.score = some q ∧ mkRat 3 10 < q) := by
  constructor
  · intro c hc
    have h := (List.mem_filter.mp hc).2
    simpa using h
  · intro c hc
    obtain ⟨hmem, hlen⟩ := List.mem_filter.mp hc
    refine ⟨by simpa using hlen, ?_⟩
    obtain ⟨m, hm, rfl⟩ := List.mem_map.mp hmem
    have hsp := (List.mem_filter.mp hm).2
    cases hscore : m.score with
    | none =>
      rw [hscore] at hsp
      simp [scorePass] at hsp
    | some q =>
      rw [hscore] at hsp
      simp only [scorePass, Bool.and_eq_true, bne_iff_ne, ne_eq,
        decide_eq_true_eq] at hsp
      exact ⟨q, by simp [hscore], hsp.2⟩

/-- Witness for Claim C9 at concrete matches on both retrieval paths. -/
theorem c9_retrieval_post_filtering_witness :
    (matchToContent lowScoreMatch ∈ queryPineconeAllContent [lowScoreMatch] ∧
      1 ≤ (matchToContent lowScoreMatch).text.length) ∧
    ∃ c, c ∈ relevantContent [goodMatch] ∧ 50 < c.text.length ∧
      ∃ q, c.score = some q ∧ mkRat 3 10 < q := by
  have h1 := (c9_retrieval_post_filtering [lowScoreMatch]).1
  have h2 := (c9_retrieval_post_filtering [goodMatch]).2
  have hmem1 : matchToContent lowScoreMatch ∈ queryPineconeAllContent [lowScoreMatch] := by
    decide
  have hmem2 :
      ({ text := "Fall protection equipment must be inspected before every use on site.",
         fileName := "fall-protection.pdf", score := some (mkRat 1 2), fileId := "f77",
         mimeType := "application/pdf" } : RouteContent) ∈ relevantContent [goodMatch] := by
    decide
  exact ⟨⟨hmem1, h1 _ hmem1⟩, ⟨_, hmem2, h2 _ hmem2⟩⟩

/-- Claim C9 counterexample: `queryPineconeContent` returns to the
synthesizer a chunk with relevance score −1 (the lowest possible) and text
length 1 — below both bounds that the repository's own
`query-course-content` route enforces (score > 0.3, length > 50) — so the
path feeding the synthesizer applies no relevance-score threshold and no
minimum usable length beyond non-emptiness. -/
theorem c9_no_score_filter_counterexample :
    queryPineconeAllContent [lowScoreMatch] =
      [{ text := "x", fileName := "Unknown", score := -1, fileId := "m1",
         mimeType := "" }] ∧
    ((-1 : ℚ) < mkRat 3 10) ∧ "x".length < 50 := by
  refine ⟨by decide, by decide, by decide⟩
